import Mathlib

/-!
Verification of the ert-concierge registry and session logic.

Shallow embedding of the core data model and operations of the Concierge
server (src/concierge.rs, src/concierge/ws.rs, src/concierge/fs.rs,
src/clients.rs, src/main.rs).

Modelling conventions:
* `Uuid` is modelled as `Nat`; `DashMap`/`HashMap` tables as association
  lists (`List (key × value)`), with `List.lookup` standing in for map
  lookup and list `filter` standing in for entry removal.
* A `send` into the mailbox of a client is recorded as an `Event`
  `(recipient uuid, payload)`; a function that both mutates the registry
  and sends messages returns the new state together with the list of
  events in emission order.
* JSON payloads become the `Payload` inductive; only their identifying
  fields are retained (serialization is a collaborator).
-/

namespace Ert

/-- Mirrors `clients.rs` `Client`: uuid, name, and the set of subscribed
group names (`groups: RwLock<HashSet<String>>`).  The mailbox sender is
replaced by the event list returned by operations. -/
structure Client where
  uuid : Nat
  name : String
  groups : List String
deriving Repr, DecidableEq

/-- Mirrors `concierge.rs` `Group`: name, owner uuid, and member uuid set
(`clients: DashMap<Uuid, ()>`, modelled as a list of uuids). -/
structure Group where
  name : String
  owner : Nat
  clients : List Nat
deriving Repr, DecidableEq

/-- Mirrors `concierge.rs` `Concierge`: the groups table, the namespace
(name → uuid), and the clients table (uuid → Client). -/
structure Concierge where
  groups : List (String × Group)
  «namespace» : List (String × Nat)
  clients : List (Nat × Client)
deriving Repr, DecidableEq

/-- `Concierge::new()`: all three tables empty. -/
def Concierge.empty : Concierge :=
  { groups := [], «namespace» := [], clients := [] }

/-- The close codes of `concierge_api_rs::close_codes` used by
`ws.rs` (`handle_identification` and `make_client`). -/
inductive CloseCode where
  | badSecret
  | badVersion
  | noAuth
  | fatalDecode
  | authFailed
  | duplicateAuth
deriving Repr, DecidableEq

/-- The outbound JSON payloads relevant to the session logic
(`concierge_api_rs` `JsonPayload` / `StatusPayload` / error payloads).
Only identifying fields are kept. -/
inductive Payload where
  | hello (uuid : Nat)
  | clientJoined (uuid : Nat) (name : String)
  | clientLeft (uuid : Nat) (name : String)
  | subscribed (seq : Nat) (group : String)
  | unsubscribed (seq : Option Nat) (group : String)
  | createdGroup (seq : Option Nat) (group : String)
  | deletedGroup (seq : Option Nat) (group : String)
  | messageSent (seq : Nat)
  | clientsList (clients : List (Nat × String))
  | groupsList (groups : List String)
  | subscriptions (groups : List String)
  | groupSubscribers (group : String) (clients : List (Nat × String))
  | errProtocol (seq : Nat)
  | errNoSuchGroup (seq : Nat) (group : String)
  | errUnauthorized (seq : Nat)
  | errUnsupported (seq : Nat)
deriving Repr, DecidableEq

/-- A message enqueued into the mailbox of one client: (recipient uuid, payload). -/
abbrev Event := Nat × Payload

/-- `contains_key` on an association-list table. -/
def containsKey [BEq κ] (l : List (κ × α)) (k : κ) : Bool :=
  l.any (fun p => p.1 == k)

/-- The sequence of payloads a given client receives out of an event list,
in order: its mailbox content produced by those events. -/
def mailbox (evs : List Event) (uuid : Nat) : List Payload :=
  (evs.filter (fun e => e.1 == uuid)).map Prod.snd

/-- `ws.rs::broadcast`: send the payload to every member of the group that
is present in the clients table; members without a client entry are
silently skipped. -/
def broadcast (c : Concierge) (g : Group) (p : Payload) : List Event :=
  g.clients.filterMap (fun u => (c.clients.lookup u).map (fun _ => (u, p)))

/-- `ws.rs::broadcast_all`: send the payload to every client in the
clients table. -/
def broadcast_all (c : Concierge) (p : Payload) : List Event :=
  c.clients.map (fun q => (q.1, p))

/-- `Concierge::remove_group` (concierge.rs): `remove_if` on the groups
table — if the group exists and its owner is `owner_id`, broadcast
`UNSUBSCRIBED` to its members and remove it, returning `true`; otherwise
leave the table unchanged and return `false`. -/
def remove_group (c : Concierge) (gname : String) (owner_id : Nat) :
    Concierge × List Event × Bool :=
  match c.groups.lookup gname with
  | none => (c, [], false)
  | some g =>
    if g.owner == owner_id then
      ({ c with groups := c.groups.filter (fun p => p.1 != gname) },
       broadcast c g (.unsubscribed none gname), true)
    else (c, [], false)

/-- `Concierge::remove_groups_owned_by` (concierge.rs): `retain` on the
groups table.  The closure keeps a group iff `group.owner != owner_id`,
and broadcasts `UNSUBSCRIBED` in the branch that KEEPS the group (exactly
as written in the source). -/
def remove_groups_owned_by (c : Concierge) (owner_id : Nat) :
    Concierge × List Event :=
  ({ c with groups := c.groups.filter (fun p => p.2.owner != owner_id) },
   (c.groups.filter (fun p => p.2.owner != owner_id)).flatMap
     (fun p => broadcast c p.2 (.unsubscribed none p.1)))

/-- Helper for `remove_from_all_groups`: drop one uuid from the member
set of one group. -/
def stripMember (uuid : Nat) (p : String × Group) : String × Group :=
  (p.1, { p.2 with clients := p.2.clients.filter (fun u => u != uuid) })

/-- `Concierge::remove_from_all_groups` (concierge.rs): delete the uuid
from the member set of every group. -/
def remove_from_all_groups (c : Concierge) (uuid : Nat) : Concierge :=
  { c with groups := c.groups.map (stripMember uuid) }

/-- `Concierge::remove_name` (concierge.rs): delete a name from the
namespace. -/
def remove_name (c : Concierge) (name : String) : Concierge :=
  { c with «namespace» := c.«namespace».filter (fun p => p.1 != name) }

/-- `Concierge::remove_client` (concierge.rs): take the client out of the
clients table (error if absent), then remove its name from the namespace,
then `remove_groups_owned_by`, then `remove_from_all_groups`.  Returns the
removed client, the final state and the events emitted along the way. -/
def remove_client (c : Concierge) (uuid : Nat) :
    Option (Client × Concierge × List Event) :=
  match c.clients.lookup uuid with
  | none => none
  | some client =>
    let c1 : Concierge := { c with clients := c.clients.filter (fun q => q.1 != uuid) }
    let c2 := remove_name c1 client.name
    let r3 := remove_groups_owned_by c2 uuid
    let c4 := remove_from_all_groups r3.1 uuid
    some (client, c4, r3.2)

/-- The intermediate state `ws.rs::make_client` passes to `broadcast_all`
for the `CLIENT_JOINED` status: the name is already inserted into the
namespace, but the client is not yet inserted into the clients table. -/
def make_client_broadcast_state (c : Concierge) (name : String) (uuid : Nat) :
    Concierge :=
  { c with «namespace» := (name, uuid) :: c.«namespace» }

/-- `ws.rs::make_client`: under the namespace write guard, fail with
`DUPLICATE_AUTH` if the name is taken; otherwise insert the name into the
namespace, create the client, broadcast `CLIENT_JOINED` (over the clients
table as it stands at that moment), and only then insert the client into
the clients table. -/
def make_client (c : Concierge) (name : String) (uuid : Nat) :
    Except CloseCode (Concierge × List Event) :=
  if containsKey c.«namespace» name then
    .error .duplicateAuth
  else
    let c1 := make_client_broadcast_state c name uuid
    let client : Client := { uuid := uuid, name := name, groups := [] }
    let evs := broadcast_all c1 (.clientJoined uuid name)
    .ok ({ c1 with clients := (uuid, client) :: c1.clients }, evs)

/-- The registration flow of `ws.rs::handle_socket_conn` /
`handle_client`: `make_client`, then the `HELLO` payload is sent to the
mailbox of the new client as the first action of `handle_client`. -/
def register (c : Concierge) (name : String) (uuid : Nat) :
    Except CloseCode (Concierge × List Event) :=
  match make_client c name uuid with
  | .error e => .error e
  | .ok (c2, evs) => .ok (c2, evs ++ [(uuid, .hello uuid)])

/-- The `GroupDelete` arm of `ws.rs::handle_payload`: call
`Concierge::remove_group` with the uuid of the requester; on `true` reply
`STATUS/DELETED_GROUP`, on `false` reply `ERROR/NO_SUCH_GROUP` (the only
error the arm can produce). -/
def handle_group_delete (c : Concierge) (requester seq : Nat) (gname : String) :
    Concierge × List Event :=
  let r := remove_group c gname requester
  if r.2.2 then
    (r.1, r.2.1 ++ [(requester, .deletedGroup (some seq) gname)])
  else
    (r.1, r.2.1 ++ [(requester, .errNoSuchGroup seq gname)])

/-- The `FetchGroupSubscribers` arm of `ws.rs::handle_payload`: on a hit,
reply with the members resolved through the clients table; when the group
is absent, the arm has no else branch — nothing is sent and nothing is
mutated. -/
def handle_fetch_group_subscribers (c : Concierge) (requester : Nat)
    (gname : String) : Concierge × List Event :=
  match c.groups.lookup gname with
  | some g =>
    (c, [(requester, .groupSubscribers g.name
      (g.clients.filterMap (fun u => (c.clients.lookup u).map (fun cl => (cl.uuid, cl.name)))))])
  | none => (c, [])

/-- The `FetchSubscriptions` arm of `ws.rs::handle_payload`: exactly as
written in the source, it collects the key of every entry of the GROUPS
table (`concierge.groups.iter().map(|(s, _)| s)`) and replies with a
`SUBSCRIPTIONS` payload holding that list.  The own `groups` set
of the requesting client is not consulted. -/
def handle_fetch_subscriptions (c : Concierge) (requester : Nat) :
    Concierge × List Event :=
  (c, [(requester, .subscriptions (c.groups.map (fun p => p.1)))])

/-- The `FetchGroups` arm of `ws.rs::handle_payload`: all group names. -/
def handle_fetch_groups (c : Concierge) (requester : Nat) :
    Concierge × List Event :=
  (c, [(requester, .groupsList (c.groups.map (fun p => p.1)))])

/-! ## The inbound seq counter (`ws.rs::handle_incoming_messages`) -/

/-- Classification of an inbound WebSocket frame by the two tests the
loop applies: `message.to_str()` (text or not) and JSON parsing
(successful or not).  `textGood` covers both the raw-`MESSAGE` fast path
and a successfully parsed typed payload. -/
inductive InFrame where
  | nonText
  | textBad
  | textGood
deriving Repr, DecidableEq

/-- A frame for which `message.to_str()` succeeds. -/
def isTextFrame : InFrame → Bool
  | .nonText => false
  | _ => true

/-- The seq counter logic of `ws.rs::handle_incoming_messages`: for every
frame whose `to_str` succeeds, the frame is handled with the current seq
value and then `seq += 1` runs — whether or not the parse succeeded (the
parse-error branch replies `ERROR/PROTOCOL` with that same seq).
Non-text frames are skipped entirely.  Returns each handled frame paired
with the seq value used for it. -/
def seqLoop : List InFrame → Nat → List (InFrame × Nat)
  | [], _ => []
  | .nonText :: rest, s => seqLoop rest s
  | f :: rest, s => (f, s) :: seqLoop rest (s + 1)

/-! ## Identification (`ws.rs::handle_identification`, `main.rs::SECRET`) -/

/-- The outcome of receiving and decoding the first frame, as the nested
`if let`s of `handle_identification` distinguish them: no frame within the
timeout (`none`), a frame that is not text or not valid JSON
(`badDecode`), a JSON payload that is not `IDENTIFY` (`notIdentify`), or
an `IDENTIFY {name, version, secret}`. -/
inductive IdMsg where
  | badDecode
  | notIdentify
  | identify (name version : String) (secret : Option String)
deriving Repr, DecidableEq

/-- `ws.rs::handle_identification`, parameterized by the configured
secret (`main.rs` `SECRET: Option<&str>`) and by the semver check
(`VersionReq::parse(VERSION).matches(...)`, a collaborator).  The secret
test is the literal `secret != crate::SECRET` comparison of options. -/
def handle_identification (secretCfg : Option String)
    (versionOk : String → Bool) : Option IdMsg → Except CloseCode String
  | none => .error .authFailed
  | some .badDecode => .error .fatalDecode
  | some .notIdentify => .error .noAuth
  | some (.identify name version secret) =>
    if secret ≠ secretCfg then .error .badSecret
    else if ¬ versionOk version then .error .badVersion
    else .ok name

/-! ## File endpoint (`fs.rs`) -/

/-- The error enum of `fs.rs`. -/
inductive FsError where
  | unknown
  | encoding
  | fileNotFound
  | ioError
  | notAFile
  | forbidden
  | badAuthorization
deriving Repr, DecidableEq

/-- The facts about the target path that `handle_file_get` consults, in
the order it consults them: `file_path.file_name()` combined with
`OsStr::to_str` (an `Option`), whether `file_path.is_file()` — i.e. the
path resolves to an existing regular file — and what `File::open` yields
(`none` for failure, `some content` for a readable file). -/
structure FsPath where
  fileName : Option String
  isFile : Bool
  openContent : Option (List Nat)
deriving Repr, DecidableEq

/-- `fs.rs::handle_file_get`: reject unregistered keys with
`BadAuthorization`; reject paths without a UTF-8 file name with
`Encoding`; then the guard exactly as in the source — `if
file_path.is_file() { return Err(FsError::NotAFile); }` — and finally
`File::open`, whose failure maps to `FileNotFound`. -/
def handle_file_get (c : Concierge) (auth : Nat) (p : FsPath) :
    Except FsError (String × List Nat) :=
  if ¬ containsKey c.clients auth then .error .badAuthorization
  else
    match p.fileName with
    | none => .error .encoding
    | some fn =>
      if p.isFile then .error .notAFile
      else
        match p.openContent with
        | none => .error .fileNotFound
        | some content => .ok (fn, content)

/-- The write performed by `fs.rs::handle_file_put`: the file is opened
with `OpenOptions::new().create(true).write(true)` — no `truncate` — so
writing the body overwrites the file from offset 0 and leaves any bytes
of the previous content beyond the length of the body in place. -/
def writeNoTruncate (old : Option (List Nat)) (body : List Nat) : List Nat :=
  body ++ (old.getD []).drop body.length

/-- `fs.rs::handle_file_put`: reject unregistered keys with
`BadAuthorization`; reject a key whose client name differs from the owner
segment with `Forbidden`; otherwise write the body into the (non
truncated) file and return the resulting stored content. -/
def handle_file_put (c : Concierge) (name : String) (auth : Nat)
    (old : Option (List Nat)) (body : List Nat) : Except FsError (List Nat) :=
  match c.clients.lookup auth with
  | none => .error .badAuthorization
  | some client =>
    if client.name ≠ name then .error .forbidden
    else .ok (writeNoTruncate old body)

/-! ## The namespace/clients symmetry invariant (spec §3 invariant 1, §8) -/

/-- Namespace symmetry: a name is in the namespace iff some client in the
clients table carries that name. -/
def nsSym (c : Concierge) : Prop :=
  (∀ p ∈ c.«namespace», ∃ q ∈ c.clients, (q.2).name = p.1) ∧
  (∀ q ∈ c.clients, ∃ p ∈ c.«namespace», p.1 = (q.2).name)

instance (c : Concierge) : Decidable (nsSym c) := by
  unfold nsSym
  infer_instance

/-! ## Concrete fixture states -/

/-- Four registered clients; uuid 0 (alice) owns group g with remaining
member 1 (bob); uuid 2 (carol) owns group h with member 3 (dave). -/
def stC1 : Concierge :=
  { groups := [("g", ⟨"g", 0, [1]⟩), ("h", ⟨"h", 2, [3]⟩)],
    «namespace» := [("alice", 0), ("bob", 1), ("carol", 2), ("dave", 3)],
    clients := [(0, ⟨0, "alice", []⟩), (1, ⟨1, "bob", ["g"]⟩),
                (2, ⟨2, "carol", []⟩), (3, ⟨3, "dave", ["h"]⟩)] }

/-- A single registered client alice (uuid 0), no groups. -/
def stAlice : Concierge :=
  { groups := [], «namespace» := [("alice", 0)],
    clients := [(0, ⟨0, "alice", []⟩)] }

/-- Two groups a (with alice as member) and b; alice (uuid 0) is
subscribed only to a, so her client groups set is exactly [a]. -/
def stC3 : Concierge :=
  { groups := [("a", ⟨"a", 0, [0]⟩), ("b", ⟨"b", 0, []⟩)],
    «namespace» := [("alice", 0)],
    clients := [(0, ⟨0, "alice", ["a"]⟩)] }

/-- Clients alice (uuid 0, owner of group g) and bob (uuid 1, member of
g). -/
def stC7 : Concierge :=
  { groups := [("g", ⟨"g", 0, [1]⟩)],
    «namespace» := [("alice", 0), ("bob", 1)],
    clients := [(0, ⟨0, "alice", []⟩), (1, ⟨1, "bob", ["g"]⟩)] }

/-- A request path that resolves to an existing regular file with content
[104, 105] and a valid UTF-8 file name. -/
def regularFilePath : FsPath :=
  ⟨some "hello.txt", true, some [104, 105]⟩

/-! ## Helper lemmas -/

/-- If `containsKey` is false, no entry of the table has that key. -/
theorem containsKey_eq_false {κ α : Type} [BEq κ] [LawfulBEq κ]
    (l : List (κ × α)) (k : κ) (h : containsKey l k = false) :
    ∀ p ∈ l, p.1 ≠ k := by
  simp only [containsKey, List.any_eq_false, beq_iff_eq] at h
  exact h

/-- Broadcast events over a table that does not contain a uuid contribute
nothing to that uuid. -/
theorem filter_broadcast_absent (l : List (Nat × Client)) (p : Payload)
    (uuid : Nat) (h : ∀ q ∈ l, q.1 ≠ uuid) :
    (l.map (fun q => ((q.1 : Nat), p))).filter (fun e => e.1 == uuid) = [] := by
  induction l with
  | nil => rfl
  | cons a t ih =>
    have ha : a.1 ≠ uuid := h a (List.mem_cons_self a t)
    simp only [List.map_cons, List.filter_cons]
    rw [if_neg (by simp [ha])]
    exact ih (fun q hq => h q (List.mem_cons_of_mem a hq))

/-! ## Claim theorems -/

/-- C1: evaluating `remove_client` on a disconnect of uuid 0, which owns
group g (remaining member: 1) while group h is owned by uuid 2 (member:
3).  Group g is indeed removed from the groups table, but the emitted
events are exactly one UNSUBSCRIBED for the SURVIVING, non-owned group h
to its member 3 — and none at all for the removed group g.  The branches
of the `retain` closure in `remove_groups_owned_by` broadcast for kept
groups instead of removed ones, the opposite of what the claim (and the
sibling `remove_group`) prescribe. -/
theorem removeClient_reap_bug :
    (remove_client stC1 0).map (fun r => (r.2.1).groups.lookup "g") = some none ∧
    (remove_client stC1 0).map (fun r => r.2.2) =
      some [(3, Payload.unsubscribed none "h")] ∧
    ∀ e ∈ [((3 : Nat), Payload.unsubscribed none "h")],
      e.2 ≠ Payload.unsubscribed none "g" :=
  ⟨rfl, rfl, by decide⟩

/-- C2 counterexample: registering alice into the empty concierge
succeeds, yet the state that `make_client` hands to `broadcast_all` for
the CLIENT_JOINED status already holds alice in the namespace while the
clients table has no client of that name — the broadcast iterates a
half-inserted client, violating the symmetry the claim asserts. -/
theorem make_client_half_inserted :
    make_client Concierge.empty "alice" 0 =
      .ok ({ groups := [], «namespace» := [("alice", 0)],
             clients := [(0, ⟨0, "alice", []⟩)] }, []) ∧
    ¬ nsSym (make_client_broadcast_state Concierge.empty "alice" 0) :=
  ⟨rfl, by decide⟩

/-- C2 (amended): if namespace symmetry holds and the name is free, then
`make_client` succeeds and symmetry holds again in the state it returns —
but symmetry does NOT hold in the intermediate state observed by the
CLIENT_JOINED broadcast, where the name is in the namespace and the
client is not yet in the clients table. -/
theorem make_client_symmetry (c : Concierge) (name : String) (uuid : Nat)
    (hsym : nsSym c) (hfree : containsKey c.«namespace» name = false) :
    (∃ c2 evs, make_client c name uuid = .ok (c2, evs) ∧ nsSym c2) ∧
    ¬ nsSym (make_client_broadcast_state c name uuid) := by
  constructor
  · refine ⟨{ groups := c.groups, «namespace» := (name, uuid) :: c.«namespace»,
              clients := (uuid, ⟨uuid, name, []⟩) :: c.clients },
            c.clients.map (fun q => (q.1, Payload.clientJoined uuid name)),
            by simp [make_client, hfree, make_client_broadcast_state, broadcast_all], ?_⟩
    constructor
    · intro p hp
      rcases List.mem_cons.mp hp with h | h
      · exact ⟨(uuid, ⟨uuid, name, []⟩), List.mem_cons_self _ _, by simp [h]⟩
      · rcases hsym.1 p h with ⟨q, hq, hname⟩
        exact ⟨q, List.mem_cons_of_mem _ hq, hname⟩
    · intro q hq
      rcases List.mem_cons.mp hq with h | h
      · exact ⟨(name, uuid), List.mem_cons_self _ _, by simp [h]⟩
      · rcases hsym.2 q h with ⟨p, hp, hname⟩
        exact ⟨p, List.mem_cons_of_mem _ hp, hname⟩
  · intro hbad
    rcases hbad.1 (name, uuid) (List.mem_cons_self _ _) with ⟨q, hq, hname⟩
    rcases hsym.2 q hq with ⟨p, hp, hpname⟩
    exact containsKey_eq_false c.«namespace» name hfree p hp (hpname.trans hname)

/-- C2 witness: the amended theorem applied to the empty concierge. -/
theorem make_client_symmetry_witness :
    (∃ c2 evs, make_client Concierge.empty "alice" 0 = .ok (c2, evs) ∧ nsSym c2) ∧
    ¬ nsSym (make_client_broadcast_state Concierge.empty "alice" 0) :=
  make_client_symmetry Concierge.empty "alice" 0 (by decide) rfl

/-- C3: in a state with groups a and b where the requesting client (uuid
0) is subscribed only to a — its own groups set is exactly [a] — the
FetchSubscriptions arm replies with a SUBSCRIPTIONS payload listing ALL
group names [a, b], not the list [a] the claim requires.  The arm reads
the groups table keys (identically to FetchGroups) and never consults
`Client::groups`. -/
theorem fetch_subscriptions_bug :
    handle_fetch_subscriptions stC3 0 =
      (stC3, [(0, Payload.subscriptions ["a", "b"])]) ∧
    (stC3.clients.lookup 0).map Client.groups = some ["a"] ∧
    Payload.subscriptions ["a", "b"] ≠ Payload.subscriptions ["a"] :=
  ⟨rfl, rfl, by decide⟩

/-- C4: evaluating `handle_file_get` with a registered key (uuid 0 of
stAlice) on a path that IS an existing regular file with readable
content: the guard `if file_path.is_file() { return Err(NotAFile) }`
fires and the handler returns the NotAFile error instead of the file
content — the inverted guard the spec flags. -/
theorem file_get_inverted_guard :
    handle_file_get stAlice 0 regularFilePath = .error .notAFile ∧
    regularFilePath.isFile = true ∧
    regularFilePath.openContent = some [104, 105] :=
  ⟨rfl, rfl, rfl⟩

/-- C5 counterexample: registering bob (uuid 1) into a concierge that
already holds alice (uuid 0): the emitted events are exactly one
CLIENT_JOINED to alice followed by HELLO to bob — no CLIENT_JOINED event
addressed to the newcomer exists, because the broadcast runs before the
newcomer is inserted into the clients table. -/
theorem register_no_self_joined :
    register stAlice "bob" 1 =
      .ok ({ groups := [], «namespace» := [("bob", 1), ("alice", 0)],
             clients := [(1, ⟨1, "bob", []⟩), (0, ⟨0, "alice", []⟩)] },
           [(0, Payload.clientJoined 1 "bob"), (1, Payload.hello 1)]) ∧
    ((1 : Nat), Payload.clientJoined 1 "bob") ∉
      [((0 : Nat), Payload.clientJoined 1 "bob"), ((1 : Nat), Payload.hello 1)] :=
  ⟨rfl, by decide⟩

/-- C5 (amended): for a fresh name and uuid, registration succeeds, the
mailbox of the newcomer built from the registration events is exactly
[HELLO] — so HELLO is strictly its first (and only) registration frame —
and every client present BEFORE the registration receives the
CLIENT_JOINED broadcast; the newcomer, not being in that table, does not. -/
theorem register_hello_first (c : Concierge) (name : String) (uuid : Nat)
    (hname : containsKey c.«namespace» name = false)
    (huuid : containsKey c.clients uuid = false) :
    ∃ c2 evs, register c name uuid = .ok (c2, evs) ∧
      mailbox evs uuid = [Payload.hello uuid] ∧
      ∀ q ∈ c.clients, (q.1, Payload.clientJoined uuid name) ∈ evs := by
  refine ⟨{ groups := c.groups, «namespace» := (name, uuid) :: c.«namespace»,
            clients := (uuid, ⟨uuid, name, []⟩) :: c.clients },
          (c.clients.map (fun q => (q.1, Payload.clientJoined uuid name))) ++
            [(uuid, Payload.hello uuid)], ?_, ?_, ?_⟩
  · simp [register, make_client, hname, make_client_broadcast_state, broadcast_all]
  · have hfree := containsKey_eq_false c.clients uuid huuid
    simp [mailbox, List.filter_append,
          filter_broadcast_absent c.clients (Payload.clientJoined uuid name) uuid hfree]
  · intro q hq
    exact List.mem_append_left _ (List.mem_map_of_mem _ hq)

/-- C5 witness: the amended theorem applied to the one-client state. -/
theorem register_hello_first_witness :
    ∃ c2 evs, register stAlice "bob" 1 = .ok (c2, evs) ∧
      mailbox evs 1 = [Payload.hello 1] ∧
      ∀ q ∈ stAlice.clients, (q.1, Payload.clientJoined 1 "bob") ∈ evs :=
  register_hello_first stAlice "bob" 1 rfl rfl

/-- C6 counterexample: for the inbound stream [unparseable text frame,
successfully parsed text frame], the loop handles the parsed frame with
seq 1 — yet that frame is the FIRST successfully parsed frame of the
stream (position 0), so the seq the claim prescribes for it is 0.  The
unparseable frame also consumed a seq value (0) for its PROTOCOL error. -/
theorem seq_counts_unparsed_frames :
    seqLoop [InFrame.textBad, InFrame.textGood] 0 =
      [(InFrame.textBad, 0), (InFrame.textGood, 1)] ∧
    (1 : Nat) ≠ 0 :=
  ⟨rfl, by decide⟩

/-- C6 (amended): the per-session seq starts at the initial value and is
incremented exactly once per inbound TEXT frame, whether or not the frame
parses: the handled frames are precisely the text frames in order, and
the seq values they are handled (and answered) with are the consecutive
integers starting at the initial value — i.e. each response echoes the
position of its request among the inbound text frames, not among the
successfully parsed ones. -/
theorem seq_per_text_frame (fs : List InFrame) (s : Nat) :
    (seqLoop fs s).map Prod.fst = fs.filter isTextFrame ∧
    (seqLoop fs s).map Prod.snd = List.range' s (fs.countP isTextFrame) := by
  induction fs generalizing s with
  | nil => simp [seqLoop]
  | cons f rest ih =>
    cases f with
    | nonText =>
      simpa [seqLoop, isTextFrame, List.countP_cons] using ih s
    | textBad =>
      have h := ih (s + 1)
      simp [seqLoop, isTextFrame, List.countP_cons, List.range'_succ, h.1, h.2]
    | textGood =>
      have h := ih (s + 1)
      simp [seqLoop, isTextFrame, List.countP_cons, List.range'_succ, h.1, h.2]

/-- C7 counterexample: in a state where group g exists with owner 0 and
uuid 1 as member, a GROUP_DELETE from the registered non-owner 1 leaves
the state unchanged and replies ERROR/NO_SUCH_GROUP — not the distinct
ERROR/UNAUTHORIZED the claim requires for this case. -/
theorem group_delete_not_owner_error :
    stC7.groups.lookup "g" = some ⟨"g", 0, [1]⟩ ∧
    handle_group_delete stC7 1 5 "g" =
      (stC7, [(1, Payload.errNoSuchGroup 5 "g")]) ∧
    ∀ e ∈ [((1 : Nat), Payload.errNoSuchGroup 5 "g")],
      e.2 ≠ Payload.errUnauthorized 5 :=
  ⟨rfl, rfl, by decide⟩

/-- C7 (amended): case analysis of the GroupDelete arm.  If the group is
absent, the state is unchanged and the requester receives
ERROR/NO_SUCH_GROUP.  If the group exists but the requester is not its
owner, the state is likewise unchanged and the requester receives the
SAME ERROR/NO_SUCH_GROUP (no UNAUTHORIZED error exists on this path).
If the requester is the owner, the group is removed, its members receive
STATUS/UNSUBSCRIBED, and the requester receives STATUS/DELETED_GROUP. -/
theorem handle_group_delete_cases (c : Concierge) (requester seq : Nat)
    (gname : String) :
    (c.groups.lookup gname = none →
      handle_group_delete c requester seq gname =
        (c, [(requester, Payload.errNoSuchGroup seq gname)])) ∧
    (∀ g, c.groups.lookup gname = some g → g.owner ≠ requester →
      handle_group_delete c requester seq gname =
        (c, [(requester, Payload.errNoSuchGroup seq gname)])) ∧
    (∀ g, c.groups.lookup gname = some g → g.owner = requester →
      handle_group_delete c requester seq gname =
        ({ c with groups := c.groups.filter (fun p => p.1 != gname) },
         broadcast c g (Payload.unsubscribed none gname) ++
           [(requester, Payload.deletedGroup (some seq) gname)])) := by
  refine ⟨?_, ?_, ?_⟩
  · intro h
    simp [handle_group_delete, remove_group, h]
  · intro g hg hne
    simp [handle_group_delete, remove_group, hg, hne]
  · intro g hg heq
    simp [handle_group_delete, remove_group, hg, heq]

/-- C7 witness: the owner case of the amended theorem at a concrete
state. -/
theorem handle_group_delete_cases_witness :
    handle_group_delete stC7 0 5 "g" =
      ({ stC7 with groups := stC7.groups.filter (fun p => p.1 != "g") },
       broadcast stC7 ⟨"g", 0, [1]⟩ (Payload.unsubscribed none "g") ++
         [(0, Payload.deletedGroup (some 5) "g")]) :=
  (handle_group_delete_cases stC7 0 5 "g").2.2 ⟨"g", 0, [1]⟩ rfl rfl

/-- C8 counterexample: with NO secret configured (as in main.rs, `SECRET:
Option<&str> = None`), an IDENTIFY carrying the secret "wrong" is
rejected with the BAD_SECRET close code: the comparison `secret !=
crate::SECRET` compares options, so the check is not skipped when the
configured secret is absent. -/
theorem identify_secret_none_rejected :
    handle_identification none (fun _ => true)
      (some (IdMsg.identify "alice" "0.2.0" (some "wrong"))) =
      .error .badSecret :=
  rfl

/-- C8 (amended): for every configured secret option, every version
predicate and every IDENTIFY payload, identification fails with
BAD_SECRET exactly when the supplied secret option differs from the
configured one.  In particular, when no secret is configured the check is
NOT skipped: supplying any secret is rejected, and only a null secret
passes; when a secret is configured the claim behaves as stated. -/
theorem badSecret_iff (secretCfg : Option String) (versionOk : String → Bool)
    (name version : String) (secret : Option String) :
    handle_identification secretCfg versionOk
      (some (IdMsg.identify name version secret)) = .error .badSecret ↔
    secret ≠ secretCfg := by
  by_cases h : secret = secretCfg
  · subst h
    cases hv : versionOk version <;> simp [handle_identification, hv]
  · simp [handle_identification, h]

/-- C8 witness: the amended theorem applied at a concrete input. -/
theorem badSecret_iff_witness :
    (handle_identification none (fun _ => true)
      (some (IdMsg.identify "alice" "0.2.0" (some "wrong"))) =
      .error .badSecret) ↔
    some "wrong" ≠ (none : Option String) :=
  badSecret_iff none (fun _ => true) "alice" "0.2.0" (some "wrong")

/-- C9: a FETCH_GROUP_SUBSCRIBERS request naming a group that is not in
the groups table produces no reply at all — no GROUP_SUBSCRIBERS payload
and no ERROR — and leaves the registry state unchanged: the arm has no
else branch. -/
theorem fetch_group_subscribers_silent (c : Concierge) (requester : Nat)
    (gname : String) (h : c.groups.lookup gname = none) :
    handle_fetch_group_subscribers c requester gname = (c, []) := by
  simp [handle_fetch_group_subscribers, h]

/-- C9 witness: the theorem applied to a state without the group. -/
theorem fetch_group_subscribers_silent_witness :
    handle_fetch_group_subscribers stC7 0 "nope" = (stC7, []) :=
  fetch_group_subscribers_silent stC7 0 "nope" rfl

/-- C10: an authorized PUT (registered key whose client name matches the
owner segment) over an existing file strictly longer than the uploaded
body succeeds and stores `body ++ (old bytes beyond the body)` — which is
never equal to the body itself, because the file is opened for writing
without truncation. -/
theorem file_put_no_truncate (c : Concierge) (name : String) (auth : Nat)
    (client : Client) (old body : List Nat)
    (hc : c.clients.lookup auth = some client)
    (hn : client.name = name)
    (hlen : body.length < old.length) :
    handle_file_put c name auth (some old) body =
      .ok (writeNoTruncate (some old) body) ∧
    writeNoTruncate (some old) body ≠ body := by
  constructor
  · simp [handle_file_put, hc, hn]
  · intro h
    have hl := congrArg List.length h
    simp [writeNoTruncate] at hl
    omega

/-- C10 witness: a five-byte file overwritten by a two-byte body keeps
its last three bytes. -/
theorem file_put_no_truncate_witness :
    handle_file_put stAlice "alice" 0 (some [1, 2, 3, 4, 5]) [9, 9] =
      .ok (writeNoTruncate (some [1, 2, 3, 4, 5]) [9, 9]) ∧
    writeNoTruncate (some [1, 2, 3, 4, 5]) [9, 9] ≠ [9, 9] :=
  file_put_no_truncate stAlice "alice" 0 ⟨0, "alice", []⟩ [1, 2, 3, 4, 5] [9, 9]
    rfl rfl (by decide)

end Ert
